import Mathlib

/-!
Shallow embedding of the 500wpm speed-reader backend (src/backend/main.py)
and verification of the specification claims about it.

External effects (DNS resolution via socket.gethostbyname, HTTP transfer via
requests, byte-string decoding, the ebooklib archive reader and the
BeautifulSoup HTML flattener) are modelled as explicit function parameters:
the repository code is embedded as pure Lean functions over those parameters.
Bytes are modelled as List Nat, Python strings as Lean String.
-/

set_option autoImplicit false

namespace FiveHundredWpm

/-!
Python string primitives.  They are implemented over List Char by
structural recursion (rather than through Lean's Substring-based String
functions) so that every definition evaluates by kernel reduction; ASCII
case folding models str.lower on the hostname/filename inputs that occur
here.
-/

/-- Does the first list start with the second one? -/
def listStartsWith : List Char → List Char → Bool
  | _, [] => true
  | [], _ :: _ => false
  | h :: t, n :: ns => h = n && listStartsWith t ns

/-- Is the first list a contiguous sublist of the second? -/
def listContains (needle : List Char) : List Char → Bool
  | [] => needle.isEmpty
  | c :: t => listStartsWith (c :: t) needle || listContains needle t

/-- Python str.strip() with no argument: drop leading and trailing
whitespace. -/
def pyStrip (s : String) : String :=
  String.mk (((s.toList.dropWhile Char.isWhitespace).reverse.dropWhile
    Char.isWhitespace).reverse)

/-- Python str.lower(). -/
def pyLower (s : String) : String :=
  String.mk (s.toList.map Char.toLower)

/-- Python str.endswith(suffix). -/
def pyEndsWith (s suffixStr : String) : Bool :=
  listStartsWith s.toList.reverse suffixStr.toList.reverse

/-- Whitespace-run tokenizer behind Python str.split() with no argument:
cur accumulates the current token in reverse. -/
def wsSplitAux : List Char → List Char → List (List Char)
  | cur, [] => if cur = [] then [] else [cur.reverse]
  | cur, c :: cs =>
    if c.isWhitespace then
      if cur = [] then wsSplitAux [] cs else cur.reverse :: wsSplitAux [] cs
    else wsSplitAux (c :: cur) cs

/-- Python str.split() with no argument: split on whitespace runs, dropping
empty tokens.  Used by Chapter.__init__ via len(text.split()). -/
def pySplitWs (s : String) : List String :=
  (wsSplitAux [] s.toList).map String.mk

/-- Chapter data model (main.py lines 60-64): title, text, and the derived
word_count computed at construction time. -/
structure Chapter where
  title : String
  text : String
  word_count : Nat
deriving DecidableEq, Repr

/-- Chapter.__init__: word_count = len(text.split()). -/
def Chapter.make (title text : String) : Chapter :=
  ⟨title, text, (pySplitWs text).length⟩

/-- HTTPException(status_code, detail) as raised by the parsers and the
format detector. -/
structure HTTPError where
  code : Nat
  detail : String
deriving DecidableEq, Repr

/-- Accumulating base-10 value of a digit list; none at the first
non-digit character. -/
def digitsValAux (acc : Nat) : List Char → Option Nat
  | [] => some acc
  | c :: cs => if c.isDigit then digitsValAux (acc * 10 + (c.toNat - 48)) cs else none

/-- Base-10 value of a non-empty all-digit character list. -/
def digitsVal : List Char → Option Nat
  | [] => none
  | l => digitsValAux 0 l

/-- Python builtin int(str): strips surrounding whitespace, accepts an
optional sign followed by a non-empty digit string, raises ValueError
otherwise.  (Underscore digit separators, which never occur in the inputs
considered here, are not modelled.) -/
def pyInt (s : String) : Except String Int :=
  let core :=
    match (pyStrip s).toList with
    | '-' :: rest => (digitsVal rest).map (fun n => -(n : Int))
    | '+' :: rest => (digitsVal rest).map (fun n => (n : Int))
    | l => (digitsVal l).map (fun n => (n : Int))
  match core with
  | some n => .ok n
  | none => .error ("invalid literal for int: " ++ s)

/-- MAX_FILE_SIZE = 50 * 1024 * 1024 (main.py line 41). -/
def MAX_FILE_SIZE : Nat := 50 * 1024 * 1024

/-! ### IP addresses and the SSRF block list -/

/-- An IP address as returned by ipaddress.ip_address: either IPv4 (32-bit
integer value) or IPv6 (128-bit integer value). -/
inductive IPAddr
  | v4 (a : Nat)
  | v6 (a : Nat)
deriving DecidableEq, Repr

/-- An ipaddress.ip_network value: version flag, integer network address and
prefix length. -/
structure IPNetwork where
  isV6 : Bool
  netAddr : Nat
  prefixLen : Nat
deriving DecidableEq, Repr

/-- Integer value of a dotted-quad IPv4 literal a.b.c.d. -/
def v4addr (a b c d : Nat) : Nat := ((a * 256 + b) * 256 + c) * 256 + d

/-- PRIVATE_IP_RANGES (main.py lines 45-53). -/
def PRIVATE_IP_RANGES : List IPNetwork :=
  [ ⟨false, v4addr 127 0 0 0, 8⟩
  , ⟨false, v4addr 10 0 0 0, 8⟩
  , ⟨false, v4addr 172 16 0 0, 12⟩
  , ⟨false, v4addr 192 168 0 0, 16⟩
  , ⟨false, v4addr 169 254 0 0, 16⟩
  , ⟨true, 1, 128⟩
  , ⟨true, 0xfe80 * 2 ^ 112, 10⟩
  ]

/-- Python `ip_obj in private_range`: false when the versions differ,
otherwise compares the leading prefixLen bits. -/
def ipInNetwork (ip : IPAddr) (net : IPNetwork) : Bool :=
  match ip with
  | .v4 a => !net.isV6 && (a / 2 ^ (32 - net.prefixLen) == net.netAddr / 2 ^ (32 - net.prefixLen))
  | .v6 a => net.isV6 && (a / 2 ^ (128 - net.prefixLen) == net.netAddr / 2 ^ (128 - net.prefixLen))

/-- The loop over PRIVATE_IP_RANGES in is_private_ip (main.py lines 80-82). -/
def inPrivateRanges (ip : IPAddr) : Bool :=
  PRIVATE_IP_RANGES.any (fun net => ipInNetwork ip net)

/-- A DNS environment: the full record set a hostname resolves to (empty
list = resolution fails / raises).  socket.gethostbyname returns a single
address — the first record. -/
def Dns : Type := String → List IPAddr

/-- is_private_ip (main.py lines 67-86): literal localhost/0.0.0.0 check,
then socket.gethostbyname (the FIRST resolved address only), then the range
loop; any exception (in particular resolution failure) returns True. -/
def is_private_ip (dns : Dns) (hostname : String) : Bool :=
  if pyLower hostname = "localhost" || pyLower hostname = "0.0.0.0" then
    true
  else
    match (dns hostname).head? with
    | none => true
    | some ip => inPrivateRanges ip

/-- The result of urllib.parse.urlparse as consumed by validate_url: the
scheme and the (already lowercased by urlparse) hostname, none when the URL
has no host.  An Except error models urlparse (or .hostname access)
raising. -/
structure ParsedURL where
  scheme : String
  hostname : Option String
deriving DecidableEq, Repr

/-- A URL-parsing environment standing for urllib.parse.urlparse. -/
def UrlParseFn : Type := String → Except String ParsedURL

/-- validate_url (main.py lines 89-108): scheme allowlist, hostname
presence, private-IP check; any exception yields (False, str(e)). -/
def validate_url (parse : UrlParseFn) (dns : Dns) (url : String) : Bool × String :=
  match parse url with
  | .error e => (false, e)
  | .ok p =>
    if p.scheme != "http" && p.scheme != "https" then
      (false, "Only HTTP and HTTPS protocols are allowed")
    else
      match p.hostname with
      | none => (false, "Invalid URL")
      | some h =>
        if h = "" then (false, "Invalid URL")
        else if is_private_ip dns h then
          (false, "Private IPs and localhost are not allowed for security reasons")
        else (true, "")

/-! ### Secure fetcher (URL mode of process_file, main.py lines 260-282) -/

/-- Outcome of the in-handler fetch: either the size ceiling was tripped
(carrying the bytes accumulated up to the abort — empty for the
Content-Length header abort) or the full body. -/
inductive FetchStep
  | tooLarge (readBytes : List Nat)
  | content (bytes : List Nat)
deriving DecidableEq, Repr

/-- The streaming read loop (main.py lines 274-282): append each chunk to
the accumulated content and abort as soon as the total exceeds
MAX_FILE_SIZE. -/
def read_chunks (acc : List Nat) : List (List Nat) → FetchStep
  | [] => .content acc
  | c :: cs =>
    let acc2 := acc ++ c
    if MAX_FILE_SIZE < acc2.length then .tooLarge acc2 else read_chunks acc2 cs

/-- The Content-Length header check (main.py lines 265-266):
`if content_length and int(content_length) > MAX_FILE_SIZE`.  A missing or
empty header is falsy and skips the check; a non-integer header makes
int() raise ValueError, which no except clause in process_file catches —
modelled as the .error case. -/
def check_content_length (cl : Option String) : Except String Bool :=
  match cl with
  | none => .ok false
  | some s =>
    if s = "" then .ok false
    else
      match pyInt s with
      | .error e => .error e
      | .ok n => .ok (decide ((MAX_FILE_SIZE : Int) < n))

/-- The body-acquisition part of the URL mode: header check then streaming
read.  .error = an exception escaping the handler. -/
def fetch_body (cl : Option String) (chunks : List (List Nat)) : Except String FetchStep :=
  match check_content_length cl with
  | .error e => .error e
  | .ok true => .ok (.tooLarge [])
  | .ok false => .ok (read_chunks [] chunks)

/-! ### Filename derivation (main.py line 285) -/

/-- Python str.split(sep) for a single-character separator, as a pair of
the first group and the remaining groups (the result list is never
empty). -/
def pySplitA (sep : Char) : List Char → List Char × List (List Char)
  | [] => ([], [])
  | c :: cs =>
    let r := pySplitA sep cs
    if c = sep then ([], r.1 :: r.2) else (c :: r.1, r.2)

/-- Python str.split(sep) for a single-character separator. -/
def pySplit (sep : Char) (l : List Char) : List (List Char) :=
  (pySplitA sep l).1 :: (pySplitA sep l).2

/-- filename = url.split('/')[-1].split('?')[0] (main.py line 285). -/
def derive_filename (url : String) : String :=
  let seg := (pySplit '/' url.toList).getLastD []
  String.mk ((pySplit '?' seg).headD [])

/-! ### Format detector (main.py lines 202-216) -/

/-- Substring containment test, Python `needle in hay`. -/
def strContains (hay needle : String) : Bool :=
  listContains needle.toList hay.toList

/-- detect_format (main.py lines 202-216): extension first (.txt, .epub,
case-insensitively), then content-type substring match when the header is
present and non-empty; otherwise HTTPException 400. -/
def detect_format (filename : String) (contentType : Option String) : Except HTTPError String :=
  let fl := pyLower filename
  if pyEndsWith fl (".txt") then .ok ("txt")
  else if pyEndsWith fl (".epub") then .ok ("epub")
  else
    let fallThrough : Except HTTPError String :=
      .error ⟨400, "Unsupported file format. Supported: .txt, .epub"⟩
    match contentType with
    | none => fallThrough
    | some ct =>
      if ct = "" then fallThrough
      else if strContains ct ("text/plain") then .ok ("txt")
      else if strContains ct ("epub") then .ok ("epub")
      else fallThrough

/-! ### Plain-text parser (main.py lines 130-145) -/

/-- A byte-decoding environment: bytes.decode('utf-8'), which may raise
UnicodeDecodeError (.error). -/
def Utf8Decode : Type := List Nat → Except String String

/-- The decode step of parse_txt_file (main.py lines 132-138): UTF-8, with
Latin-1 fallback on UnicodeDecodeError.  (The except around the Latin-1
decode is dead code — that decoding accepts every byte value — so the
fallback is modelled as a total function.) -/
def txt_decoded (utf8 : Utf8Decode) (latin1 : List Nat → String) (content : List Nat) : String :=
  match utf8 content with
  | .ok t => t
  | .error _ => latin1 content

/-- parse_txt_file (main.py lines 130-145): decode, strip, empty check,
single "Untitled" chapter. -/
def parse_txt_file (utf8 : Utf8Decode) (latin1 : List Nat → String) (content : List Nat) :
    Except HTTPError (List Chapter) :=
  let text := pyStrip (txt_decoded utf8 latin1 content)
  if text = "" then .error ⟨400, "File is empty"⟩
  else .ok [Chapter.make ("Untitled") text]

/-! ### EPUB parser (main.py lines 148-199) -/

/-- ebooklib.ITEM_DOCUMENT. -/
def ITEM_DOCUMENT : Nat := 9

/-- An item of the e-book package, as seen through ebooklib: get_type(),
get_name() ("" models an absent name, which is falsy in Python), and
get_content() raw bytes. -/
structure EpubItem where
  itemType : Nat
  name : String
  content : List Nat
deriving DecidableEq, Repr

/-- The parsed e-book package: its items in package order
(book.get_items()). -/
structure Book where
  items : List EpubItem
deriving DecidableEq, Repr

/-- An archive-reading environment standing for epub.read_epub; .error
models the reader raising (e.g. on bytes that are not a zip archive). -/
def EpubReader : Type := List Nat → Except String Book

/-- The title rule (main.py lines 176-178): the item's internal name unless
it is falsy or ends in .html/.xhtml, in which case "Chapter n". -/
def chapter_title (name : String) (n : Nat) : String :=
  if name = "" || pyEndsWith name (".html") || pyEndsWith name (".xhtml") then
    "Chapter " ++ toString n
  else name

/-- The item loop of parse_epub_file (main.py lines 166-182): for each
document item, decode its content as UTF-8 (a decode error raises out of
the loop), flatten the HTML to text, drop items whose stripped text is
shorter than 100 characters, and title the accepted rest by the title rule,
with the running counter n incremented only on acceptance. -/
def extract_chapters (utf8 : Utf8Decode) (ext : String → String) :
    List EpubItem → List Chapter → Nat → Except String (List Chapter)
  | [], acc, _ => .ok acc
  | it :: rest, acc, n =>
    if it.itemType = ITEM_DOCUMENT then
      match utf8 it.content with
      | .error e => .error e
      | .ok html =>
        let text := ext html
        if (pyStrip text).length < 100 then extract_chapters utf8 ext rest acc n
        else
          extract_chapters utf8 ext rest (acc ++ [Chapter.make (chapter_title it.name n) text])
            (n + 1)
    else extract_chapters utf8 ext rest acc n

/-- Fate of the temporary file parse_epub_file stages the bytes in
(created with delete=False; os.unlink runs only on the path that reaches
main.py line 187). -/
inductive TempFate
  | released
  | leaked
deriving DecidableEq, Repr

/-- parse_epub_file (main.py lines 148-199): stage bytes in a temp file,
read the package, walk the items, unlink the temp file, and fail with
HTTPException 400 when nothing survived the filter; any other exception is
wrapped as "Failed to parse EPUB file: ...".  The first component records
whether the temp file was unlinked on that path: when read_epub or the
item walk raises, control jumps to the except clauses before the unlink
at line 187 runs, so the temp file is left on disk. -/
def parse_epub_file (readEpub : EpubReader) (utf8 : Utf8Decode) (ext : String → String)
    (content : List Nat) : TempFate × Except HTTPError (List Chapter) :=
  match readEpub content with
  | .error e => (.leaked, .error ⟨400, "Failed to parse EPUB file: " ++ e⟩)
  | .ok book =>
    match extract_chapters utf8 ext book.items [] 1 with
    | .error e => (.leaked, .error ⟨400, "Failed to parse EPUB file: " ++ e⟩)
    | .ok chapters =>
      if chapters.isEmpty then
        (.released, .error ⟨400, "No readable content found in EPUB file"⟩)
      else (.released, .ok chapters)

/-! ### The /api/process endpoint (main.py lines 224-382) -/

/-- The observable outcome of requests.get(url, stream=True) followed by
raise_for_status(): statusMsg = some m when raise_for_status raises an
HTTPError (a RequestException) with message m; the two headers the handler
reads; and the body chunks that iter_content(chunk_size=8192) yields. -/
structure HttpResp where
  statusMsg : Option String
  contentLength : Option String
  contentType : Option String
  chunks : List (List Nat)

/-- Outcome of the requests.get call itself. -/
inductive HttpResult
  | timeout
  | netError (msg : String)
  | resp (r : HttpResp)

/-- All external collaborators of the endpoint, as one environment. -/
structure Env where
  parse : UrlParseFn
  dns : Dns
  http : String → HttpResult
  utf8 : Utf8Decode
  latin1 : List Nat → String
  readEpub : EpubReader
  extractHtml : String → String

/-- A request to the endpoint: urlField = some u when the request carried a
parseable application/json body with a string under key "url" (the
URLRequest pydantic model); file = the multipart upload, when present. -/
structure FileUpload where
  filename : String
  contentType : Option String
  content : List Nat

structure ApiRequest where
  urlField : Option String
  file : Option FileUpload

/-- The JSON bodies process_file returns: either the failure shape
(success=False, error, message) or the success shape. -/
inductive ApiResponse
  | failure (error message : String)
  | success (chapters : List Chapter) (totalWords : Nat) (source format : String)
deriving DecidableEq, Repr

/-- `if url_request and url_request.url:` (main.py line 247): URL mode runs
only when the JSON body supplied a non-empty url string. -/
def nonEmptyUrl : Option String → Option String
  | some u => if u = "" then none else some u
  | none => none

/-- The format dispatch and response assembly (main.py lines 341-382):
run the matching parser, turn an HTTPException into the Parse-error shape,
and otherwise sum the word counts into the success shape. -/
def finish_parse (parsed : Except HTTPError (List Chapter)) (source fmt : String) : ApiResponse :=
  match parsed with
  | .error e => .failure ("Parse error") e.detail
  | .ok chapters =>
    .success chapters ((chapters.map Chapter.word_count).sum) source fmt

/-- Dispatch on the detected format (main.py lines 341-351). -/
def process_content (env : Env) (fmt : String) (bytes : List Nat) (source : String) : ApiResponse :=
  if fmt = "txt" then finish_parse (parse_txt_file env.utf8 env.latin1 bytes) source fmt
  else if fmt = "epub" then
    finish_parse ((parse_epub_file env.readEpub env.utf8 env.extractHtml bytes).2) source fmt
  else .failure ("Unsupported format") ("Format \x27" ++ fmt ++ "\x27 is not supported")

/-- URL mode, size-checked body read onward (main.py lines 264-287): the
Content-Length check and chunked read, then filename derivation, format
detection and parsing.  The Except .error case is an exception escaping
the handler (the uncaught ValueError from int() on a malformed
Content-Length header). -/
def handle_url_body (env : Env) (url : String) (r : HttpResp) : Except String ApiResponse :=
  match fetch_body r.contentLength r.chunks with
  | .error e => .error e
  | .ok (.tooLarge _) => .ok (.failure ("File too large") ("File exceeds 50MB limit"))
  | .ok (.content bytes) =>
    match detect_format (derive_filename url) r.contentType with
    | .error e => .ok (.failure ("Invalid format") e.detail)
    | .ok fmt => .ok (process_content env fmt bytes url)

/-- URL mode, raise_for_status (main.py line 262): an HTTP error status
raises an HTTPError, caught as RequestException at line 295. -/
def handle_url_response (env : Env) (url : String) (r : HttpResp) : Except String ApiResponse :=
  match r.statusMsg with
  | some m => .ok (.failure ("Fetch failed") ("Failed to fetch URL: " ++ m))
  | none => handle_url_body env url r

/-- URL mode, the requests.get call (main.py lines 261, 289-300): timeout
and transport failures become their failure shapes. -/
def handle_url_fetch (env : Env) (url : String) : Except String ApiResponse :=
  match env.http url with
  | .timeout => .ok (.failure ("Timeout") ("Request timed out. Please try again."))
  | .netError m => .ok (.failure ("Fetch failed") ("Failed to fetch URL: " ++ m))
  | .resp r => handle_url_response env url r

/-- URL mode (main.py lines 247-308): validate, then fetch. -/
def handle_url (env : Env) (url : String) : Except String ApiResponse :=
  match validate_url env.parse env.dns url with
  | (false, msg) => .ok (.failure ("Invalid URL") msg)
  | (true, _) => handle_url_fetch env url

/-- Upload mode (main.py lines 311-331): ceiling check on the fully read
upload, then format detection, then parsing. -/
def handle_upload (env : Env) (f : FileUpload) : ApiResponse :=
  if MAX_FILE_SIZE < f.content.length then
    .failure ("File too large") ("File exceeds 50MB limit")
  else
    match detect_format f.filename f.contentType with
    | .error e => .failure ("Invalid format") e.detail
    | .ok fmt => process_content env fmt f.content f.filename

/-- process_file (main.py lines 224-382): URL mode when the JSON body holds
a non-empty url (stripped before use), else upload mode, else the
Missing-input failure. -/
def process_file (env : Env) (req : ApiRequest) : Except String ApiResponse :=
  match nonEmptyUrl req.urlField with
  | some u => handle_url env (pyStrip u)
  | none =>
    match req.file with
    | some f => .ok (handle_upload env f)
    | none =>
      .ok (.failure ("Missing input") ("Please provide either a URL or a file upload"))

/-! ## Helper lemmas -/

/-- is_private_ip answers True when the hostname is a blocked literal or the
first resolved address is in a blocked range. -/
lemma is_private_ip_true_of (dns : Dns) (h : String)
    (hb : pyLower h = "localhost" ∨ pyLower h = "0.0.0.0" ∨
      ∃ ip, (dns h).head? = some ip ∧ inPrivateRanges ip = true) :
    is_private_ip dns h = true := by
  rcases hb with h1 | h1 | ⟨ip, hip, hpr⟩
  · simp [is_private_ip, h1]
  · simp [is_private_ip, h1]
  · simp only [is_private_ip, hip]
    split
    · rfl
    · exact hpr

/-- is_private_ip answers True when resolution fails (gethostbyname raises,
ending in the except branch). -/
lemma is_private_ip_true_of_empty (dns : Dns) (h : String) (hd : dns h = []) :
    is_private_ip dns h = true := by
  simp only [is_private_ip, hd]
  split <;> rfl

/-- validate_url rejects whenever the parsed hostname is judged private. -/
lemma validate_fst_false_of_private (parse : UrlParseFn) (dns : Dns) (url : String)
    (p : ParsedURL) (h : String) (hp : parse url = .ok p) (hh : p.hostname = some h)
    (hpriv : is_private_ip dns h = true) :
    (validate_url parse dns url).1 = false := by
  obtain ⟨sch, host⟩ := p
  simp only [ParsedURL.hostname] at hh
  subst hh
  simp only [validate_url, hp]
  by_cases hs : (sch != "http" && sch != "https") = true
  · simp [hs]
  · rw [if_neg hs]
    by_cases he : h = ""
    · simp [he]
    · simp [he, hpriv]

/-! ## Claims -/

/-- C1, counterexample: a hostname whose DNS record set holds a public
address first and a private address (10.0.0.1, inside 10.0.0.0/8) second is
ALLOWED by validate_url, because is_private_ip checks only the single
address socket.gethostbyname returns — the first record — even though a
resolved address lies in a blocked range. -/
theorem claim_C1_counterexample :
    (validate_url (fun _ => .ok ⟨"http", some ("multi.example")⟩)
        (fun _ => [.v4 (v4addr 93 184 216 34), .v4 (v4addr 10 0 0 1)])
        "http://multi.example" = (true, ""))
    ∧ ([IPAddr.v4 (v4addr 93 184 216 34), IPAddr.v4 (v4addr 10 0 0 1)].any
        inPrivateRanges = true) :=
  ⟨rfl, by decide⟩

/-- C1 (amended): for every URL whose hostname parses, validate returns
allowed=false whenever the FIRST address of the DNS record set (the single
address socket.gethostbyname returns), or the literal hostname string
localhost/0.0.0.0 compared case-insensitively, lies in one of the blocked
ranges 127.0.0.0/8, 10.0.0.0/8, 172.16.0.0/12, 192.168.0.0/16,
169.254.0.0/16, ::1/128, fe80::/10; resolved addresses beyond the first
record are not consulted. -/
theorem claim_C1_amended (parse : UrlParseFn) (dns : Dns) (url : String)
    (p : ParsedURL) (h : String)
    (hp : parse url = .ok p) (hh : p.hostname = some h)
    (hblock : pyLower h = "localhost" ∨ pyLower h = "0.0.0.0" ∨
      ∃ ip, (dns h).head? = some ip ∧ inPrivateRanges ip = true) :
    (validate_url parse dns url).1 = false :=
  validate_fst_false_of_private parse dns url p h hp hh (is_private_ip_true_of dns h hblock)

/-- C1, witness: a URL whose hostname resolves first to 10.0.0.5 is
rejected. -/
theorem claim_C1_witness :
    (pyLower ("internal.example") = "localhost" ∨ pyLower ("internal.example") = "0.0.0.0" ∨
      ∃ ip, ([IPAddr.v4 (v4addr 10 0 0 5)] : List IPAddr).head? = some ip ∧
        inPrivateRanges ip = true)
    ∧ (validate_url (fun _ => .ok ⟨"http", some ("internal.example")⟩)
        (fun _ => [.v4 (v4addr 10 0 0 5)]) "http://internal.example").1 = false :=
  ⟨Or.inr (Or.inr ⟨.v4 (v4addr 10 0 0 5), rfl, by decide⟩),
   claim_C1_amended _ _ _ ⟨"http", some ("internal.example")⟩ "internal.example" rfl rfl
     (Or.inr (Or.inr ⟨.v4 (v4addr 10 0 0 5), rfl, by decide⟩))⟩

/-- C4: the validator fails closed — an exception while parsing the URL
yields (False, str(e)), and a hostname on which resolution raises (empty
record set: NXDOMAIN, malformed host, network error) yields allowed=false. -/
theorem claim_C4 (parse : UrlParseFn) (dns : Dns) (url : String) :
    (∀ e, parse url = .error e → validate_url parse dns url = (false, e))
    ∧ (∀ p h, parse url = .ok p → p.hostname = some h → dns h = [] →
        (validate_url parse dns url).1 = false) := by
  constructor
  · intro e he
    simp [validate_url, he]
  · intro p h hp hh hd
    exact validate_fst_false_of_private parse dns url p h hp hh
      (is_private_ip_true_of_empty dns h hd)

/-- C4, witness: a URL on which urlparse raises is rejected with the raised
message, and a hostname with no DNS records is rejected. -/
theorem claim_C4_witness :
    ((fun _ : String => (Except.error ("boom") : Except String ParsedURL)) "http://x"
        = Except.error ("boom"))
    ∧ validate_url (fun _ => .error ("boom")) (fun _ => []) "http://x" = (false, "boom")
    ∧ (validate_url (fun _ => .ok ⟨"http", some ("gone.example")⟩)
        (fun _ => ([] : List IPAddr)) "http://gone.example").1 = false :=
  ⟨rfl,
   (claim_C4 (fun _ => .error ("boom")) (fun _ => []) "http://x").1 ("boom") rfl,
   (claim_C4 (fun _ => .ok ⟨"http", some ("gone.example")⟩) (fun _ => [])
       "http://gone.example").2 ⟨"http", some ("gone.example")⟩ "gone.example" rfl rfl rfl⟩

/-- C5: the code contradicts the claim — when epub.read_epub raises (here:
on bytes that are not a zip archive), control jumps to the except clauses
before the os.unlink at main.py line 187 runs, and since the temp file was
created with delete=False it is left on disk: the temporary resource still
exists after the parser raises. -/
theorem claim_C5_temp_leak :
    parse_epub_file (fun _ => .error ("File is not a zip file")) (fun _ => .ok (""))
        (fun s => s) [0]
      = (.leaked, .error ⟨400, "Failed to parse EPUB file: File is not a zip file"⟩) :=
  rfl

/-- C7: for every byte input, when the decoded text is empty after trimming
the plain-text parser fails with the empty-content error, and otherwise it
returns exactly one chapter titled "Untitled" holding the full trimmed text
with word_count the number of whitespace-delimited tokens. -/
theorem claim_C7 (utf8 : Utf8Decode) (latin1 : List Nat → String) (content : List Nat) :
    (pyStrip (txt_decoded utf8 latin1 content) = "" →
      parse_txt_file utf8 latin1 content = .error ⟨400, "File is empty"⟩)
    ∧ (pyStrip (txt_decoded utf8 latin1 content) ≠ "" →
      parse_txt_file utf8 latin1 content =
        .ok [⟨"Untitled", pyStrip (txt_decoded utf8 latin1 content),
              (pySplitWs (pyStrip (txt_decoded utf8 latin1 content))).length⟩]) := by
  constructor
  · intro h
    simp [parse_txt_file, h]
  · intro h
    simp [parse_txt_file, h, Chapter.make]

/-- C7, witness: whitespace-padded "hello world" yields one Untitled
chapter of two words. -/
theorem claim_C7_witness :
    (pyStrip (txt_decoded (fun _ => .ok (" hello world ")) (fun _ => "") [0]) ≠ "")
    ∧ parse_txt_file (fun _ => .ok (" hello world ")) (fun _ => "") [0] =
        .ok [⟨"Untitled", "hello world", 2⟩] := by
  refine ⟨by decide, ?_⟩
  exact (claim_C7 (fun _ => .ok (" hello world ")) (fun _ => "") [0]).2 (by decide)

/-- C8, counterexample: an archive with zero surviving chapters fails with
detail "No readable content found in EPUB file", not the claim's quoted
message "No readable content found". -/
theorem claim_C8_counterexample :
    (parse_epub_file (fun _ => .ok ⟨[]⟩) (fun _ => .ok ("")) (fun s => s) [0]).2 =
      .error ⟨400, "No readable content found in EPUB file"⟩
    ∧ ("No readable content found in EPUB file" ≠ "No readable content found") :=
  ⟨rfl, by decide⟩

/-- C8 (amended): when zero chapters survive the filter the parser fails
with HTTPException 400 "No readable content found in EPUB file"; any
failure while opening or walking the archive is wrapped as
"Failed to parse EPUB file: " followed by the underlying cause; and a
chapter list is returned only when the whole walk succeeded with a
non-empty list — never partially. -/
theorem claim_C8_amended (readEpub : EpubReader) (utf8 : Utf8Decode)
    (ext : String → String) (content : List Nat) :
    (∀ e, readEpub content = .error e →
      parse_epub_file readEpub utf8 ext content =
        (.leaked, .error ⟨400, "Failed to parse EPUB file: " ++ e⟩))
    ∧ (∀ book e, readEpub content = .ok book →
        extract_chapters utf8 ext book.items [] 1 = .error e →
        parse_epub_file readEpub utf8 ext content =
          (.leaked, .error ⟨400, "Failed to parse EPUB file: " ++ e⟩))
    ∧ (∀ book, readEpub content = .ok book →
        extract_chapters utf8 ext book.items [] 1 = .ok [] →
        (parse_epub_file readEpub utf8 ext content).2 =
          .error ⟨400, "No readable content found in EPUB file"⟩)
    ∧ (∀ cs, (parse_epub_file readEpub utf8 ext content).2 = .ok cs →
        cs ≠ [] ∧ ∃ book, readEpub content = .ok book ∧
          extract_chapters utf8 ext book.items [] 1 = .ok cs) := by
  refine ⟨?_, ?_, ?_, ?_⟩
  · intro e he
    simp [parse_epub_file, he]
  · intro book e hb hw
    simp [parse_epub_file, hb, hw]
  · intro book hb hw
    simp [parse_epub_file, hb, hw]
  · intro cs hcs
    cases hr : readEpub content with
    | error e => simp [parse_epub_file, hr] at hcs
    | ok book =>
      simp only [parse_epub_file, hr] at hcs
      cases hw : extract_chapters utf8 ext book.items [] 1 with
      | error e => simp [hw] at hcs
      | ok l =>
        simp only [hw] at hcs
        by_cases hl : l.isEmpty
        · simp [hl] at hcs
        · simp only [hl, if_false, Bool.false_eq_true] at hcs
          cases hcs
          exact ⟨by simpa [List.isEmpty_iff] using hl, book, rfl, hw⟩

/-- C8, witness: a reader that raises "boom" produces the wrapped parse
error (and leaks the temp file). -/
theorem claim_C8_witness :
    ((fun _ : List Nat => (Except.error ("boom") : Except String Book)) [0]
        = Except.error ("boom"))
    ∧ parse_epub_file (fun _ => .error ("boom")) (fun _ => .ok ("")) (fun s => s) [0] =
        (.leaked, .error ⟨400, "Failed to parse EPUB file: boom"⟩) :=
  ⟨rfl,
   (claim_C8_amended (fun _ => .error ("boom")) (fun _ => .ok ("")) (fun s => s) [0]).1
     ("boom") rfl⟩

/-- C10: a JSON body whose url key maps to the empty string, with no file
upload, yields the Missing-input failure for EVERY environment — in
particular the URL validator is never consulted, so the empty string is
not reported as an invalid URL. -/
theorem claim_C10 (env : Env) :
    process_file env ⟨some (""), none⟩ =
      .ok (.failure ("Missing input") ("Please provide either a URL or a file upload")) :=
  rfl

/-! ## C9: filename derivation -/

/-- Everything after the last occurrence of sep (the whole list when sep
does not occur). -/
def after_last (sep : Char) : List Char → List Char
  | [] => []
  | c :: cs => if sep ∈ (c :: cs) then after_last sep cs else c :: cs

lemma pySplitA_fst (sep : Char) (l : List Char) :
    (pySplitA sep l).1 = l.takeWhile (fun c => c != sep) := by
  induction l with
  | nil => rfl
  | cons c cs ih =>
    by_cases hc : c = sep
    · subst hc
      simp [pySplitA, List.takeWhile_cons]
    · simp [pySplitA, hc, ih, List.takeWhile_cons]

lemma pySplitA_of_not_mem (sep : Char) (l : List Char) (h : sep ∉ l) :
    pySplitA sep l = (l, []) := by
  induction l with
  | nil => rfl
  | cons c cs ih =>
    have hc : ¬c = sep := fun hcc => h (hcc ▸ List.mem_cons_self c cs)
    have hcs : sep ∉ cs := fun hm => h (List.mem_cons_of_mem c hm)
    simp [pySplitA, hc, ih hcs]

lemma pySplitA_snd_ne (sep : Char) (l : List Char) (h : sep ∈ l) :
    (pySplitA sep l).2 ≠ [] := by
  induction l with
  | nil => cases h
  | cons c cs ih =>
    by_cases hc : c = sep
    · subst hc
      simp [pySplitA]
    · have hcs : sep ∈ cs := by
        cases h with
        | head => exact absurd rfl hc
        | tail _ hm => exact hm
      simpa [pySplitA, hc] using ih hcs

lemma pySplit_getLast (sep : Char) (l : List Char) :
    ((pySplitA sep l).1 :: (pySplitA sep l).2).getLastD [] = after_last sep l := by
  induction l with
  | nil => rfl
  | cons c cs ih =>
    by_cases hm : sep ∈ (c :: cs)
    · by_cases hc : c = sep
      · subst hc
        simp only [pySplitA, if_pos rfl, List.getLastD_cons]
        rw [after_last, if_pos hm]
        exact ih
      · have hcs : sep ∈ cs := by
          cases hm with
          | head => exact absurd rfl hc
          | tail _ h2 => exact h2
        cases hgs : (pySplitA sep cs).2 with
        | nil => exact absurd hgs (pySplitA_snd_ne sep cs hcs)
        | cons gh gt =>
          have h3 := ih
          rw [hgs, List.getLastD_cons, List.getLastD_cons] at h3
          rw [after_last, if_pos hm, ← h3]
          rw [show pySplitA sep (c :: cs) = (c :: (pySplitA sep cs).1, (pySplitA sep cs).2)
            from by simp [pySplitA, hc]]
          rw [hgs, List.getLastD_cons, List.getLastD_cons]
    · rw [after_last, if_neg hm]
      simp [pySplitA_of_not_mem sep (c :: cs) hm]

/-- C9, counterexample: the URL fragment survives into the derived
filename — url.split('/')[-1].split('?')[0] strips a query but not a
fragment, so the fragment both appears in and alters the filename. -/
theorem claim_C9_counterexample :
    derive_filename "http://example.com/book.txt#frag" = "book.txt#frag"
    ∧ ("book.txt#frag" ≠ "book.txt") :=
  ⟨rfl, by decide⟩

/-- C9 (amended): the filename passed to format detection equals the part
of the raw URL after its last slash, truncated at the first question mark:
a query string after the final path segment is stripped, but a fragment is
not, and a slash inside the query or fragment shifts the segment taken. -/
theorem claim_C9_amended (url : String) :
    derive_filename url =
      String.mk ((after_last '/' url.toList).takeWhile (fun c => c != '?')) := by
  show String.mk
      ((pySplit '?' ((pySplit '/' url.toList).getLastD [])).headD []) = _
  unfold pySplit
  rw [List.headD_cons, pySplitA_fst, pySplit_getLast]

/-! ## C6: EPUB filter and title rules -/

/-- Modelled from the spec words for comparison with the code: the document
items whose flattened, stripped text has at least 100 characters, in
package order (dec is the total bytes-to-text decoding the hypothesis of
claim_C6 ties to utf8). -/
def accepted_items (dec : List Nat → String) (ext : String → String)
    (items : List EpubItem) : List EpubItem :=
  items.filter (fun it =>
    it.itemType == ITEM_DOCUMENT && !((pyStrip (ext (dec it.content))).length < 100))

/-- Modelled from the spec words: number the accepted items consecutively
starting at n, titling each by the title rule. -/
def spec_titled (dec : List Nat → String) (ext : String → String) :
    List EpubItem → Nat → List Chapter
  | [], _ => []
  | it :: rest, n =>
    Chapter.make (chapter_title it.name n) (ext (dec it.content)) ::
      spec_titled dec ext rest (n + 1)

/-- Modelled from the spec words: filter first, then assign the 1-based
counter over accepted chapters only. -/
def spec_chapters (dec : List Nat → String) (ext : String → String)
    (items : List EpubItem) : List Chapter :=
  spec_titled dec ext (accepted_items dec ext items) 1

lemma extract_chapters_eq_spec (utf8 : Utf8Decode) (ext : String → String)
    (dec : List Nat → String) (items : List EpubItem) :
    ∀ acc n, (∀ it ∈ items, it.itemType = ITEM_DOCUMENT → utf8 it.content = .ok (dec it.content)) →
    extract_chapters utf8 ext items acc n =
      .ok (acc ++ spec_titled dec ext (accepted_items dec ext items) n) := by
  induction items with
  | nil =>
    intro acc n _
    simp [extract_chapters, accepted_items, spec_titled]
  | cons it rest ih =>
    intro acc n hdec
    have hrest : ∀ it2 ∈ rest, it2.itemType = ITEM_DOCUMENT →
        utf8 it2.content = .ok (dec it2.content) :=
      fun it2 hm => hdec it2 (List.mem_cons_of_mem it hm)
    by_cases ht : it.itemType = ITEM_DOCUMENT
    · have hd := hdec it (List.mem_cons_self it rest) ht
      by_cases hlen : (pyStrip (ext (dec it.content))).length < 100
      · rw [show extract_chapters utf8 ext (it :: rest) acc n =
            extract_chapters utf8 ext rest acc n by
          simp [extract_chapters, ht, hd, hlen]]
        rw [ih acc n hrest]
        simp [accepted_items, List.filter_cons, ht, hlen]
      · rw [show extract_chapters utf8 ext (it :: rest) acc n =
            extract_chapters utf8 ext rest
              (acc ++ [Chapter.make (chapter_title it.name n) (ext (dec it.content))])
              (n + 1) by
          simp [extract_chapters, ht, hd, hlen]]
        rw [ih _ _ hrest]
        simp [accepted_items, List.filter_cons, ht, hlen, spec_titled]
    · rw [show extract_chapters utf8 ext (it :: rest) acc n =
          extract_chapters utf8 ext rest acc n by
        simp [extract_chapters, ht]]
      rw [ih acc n hrest]
      simp [accepted_items, List.filter_cons, ht]

/-- C6: whenever every document item's bytes decode (to the total decoding
dec), the item walk succeeds and returns exactly the spec-side chapter
list: the document items whose stripped flattened text has at least 100
characters, in package order, titled by the internal filename unless it is
absent or ends in .html/.xhtml, in which case "Chapter n" with n the
1-based counter over accepted chapters only. -/
theorem claim_C6 (utf8 : Utf8Decode) (ext : String → String) (dec : List Nat → String)
    (items : List EpubItem)
    (hdec : ∀ it ∈ items, it.itemType = ITEM_DOCUMENT → utf8 it.content = .ok (dec it.content)) :
    extract_chapters utf8 ext items [] 1 = .ok (spec_chapters dec ext items) := by
  rw [extract_chapters_eq_spec utf8 ext dec items [] 1 hdec]
  rfl

set_option maxRecDepth 100000 in
/-- C6, witness: the spec's own example — a 50-character item and a
500-character item named long.xhtml yield exactly one chapter, titled
"Chapter 1". -/
theorem claim_C6_witness :
    (∀ it ∈ [EpubItem.mk 9 ("short.xhtml") [1], EpubItem.mk 9 ("long.xhtml") [2]],
      it.itemType = ITEM_DOCUMENT →
      (fun b => (Except.ok (if b = [1] then String.mk (List.replicate 50 'a')
          else String.mk (List.replicate 500 'a')) : Except String String)) it.content =
        .ok ((fun b => if b = [1] then String.mk (List.replicate 50 'a')
          else String.mk (List.replicate 500 'a')) it.content))
    ∧ extract_chapters
        (fun b => .ok (if b = [1] then String.mk (List.replicate 50 'a')
          else String.mk (List.replicate 500 'a')))
        (fun s => s)
        [EpubItem.mk 9 ("short.xhtml") [1], EpubItem.mk 9 ("long.xhtml") [2]] [] 1 =
      .ok [Chapter.mk ("Chapter 1") (String.mk (List.replicate 500 'a')) 1] := by
  refine ⟨fun it _ _ => rfl, ?_⟩
  have h := claim_C6
    (fun b => .ok (if b = [1] then String.mk (List.replicate 50 'a')
      else String.mk (List.replicate 500 'a')))
    (fun s => s)
    (fun b => if b = [1] then String.mk (List.replicate 50 'a')
      else String.mk (List.replicate 500 'a'))
    [EpubItem.mk 9 ("short.xhtml") [1], EpubItem.mk 9 ("long.xhtml") [2]]
    (fun it _ _ => rfl)
  exact h.trans (by rfl)

/-! ## C2: the 50 MiB fetch ceiling -/

/-- The response declares a Content-Length above the ceiling: a present,
non-empty header whose integer value exceeds MAX_FILE_SIZE. -/
def declared_exceeds (cl : Option String) : Prop :=
  ∃ s n, cl = some s ∧ s ≠ "" ∧ pyInt s = .ok n ∧ (MAX_FILE_SIZE : Int) < n

/-- The header check lets the body be read: the header is absent, empty, or
declares a value within the ceiling. -/
def header_passes (cl : Option String) : Prop :=
  cl = none ∨ cl = some "" ∨ ∃ s n, cl = some s ∧ pyInt s = .ok n ∧ n ≤ (MAX_FILE_SIZE : Int)

/-- Some prefix of the chunk stream accumulates past the ceiling. -/
def stream_exceeds (chunks : List (List Nat)) : Prop :=
  ∃ p, p <+: chunks ∧ MAX_FILE_SIZE < (p.map List.length).sum

lemma read_chunks_tooLarge_bound (chunks : List (List Nat)) :
    ∀ acc r, (∀ c ∈ chunks, c.length ≤ 8192) → acc.length ≤ MAX_FILE_SIZE →
    read_chunks acc chunks = .tooLarge r →
    MAX_FILE_SIZE < r.length ∧ r.length ≤ MAX_FILE_SIZE + 8192 := by
  induction chunks with
  | nil =>
    intro acc r _ _ h
    exact absurd h (by simp [read_chunks])
  | cons c cs ih =>
    intro acc r hc ha h
    simp only [read_chunks] at h
    by_cases hb : MAX_FILE_SIZE < (acc ++ c).length
    · rw [if_pos hb] at h
      cases h
      refine ⟨hb, ?_⟩
      rw [List.length_append]
      exact Nat.add_le_add ha (hc c (List.mem_cons_self c cs))
    · rw [if_neg hb] at h
      exact ih (acc ++ c) r (fun d hd => hc d (List.mem_cons_of_mem c hd))
        (Nat.le_of_not_lt hb) h

lemma read_chunks_tooLarge_exceeds (chunks : List (List Nat)) :
    ∀ acc r, read_chunks acc chunks = .tooLarge r →
    ∃ p, p <+: chunks ∧ MAX_FILE_SIZE < acc.length + (p.map List.length).sum := by
  induction chunks with
  | nil =>
    intro acc r h
    exact absurd h (by simp [read_chunks])
  | cons c cs ih =>
    intro acc r h
    simp only [read_chunks] at h
    by_cases hb : MAX_FILE_SIZE < (acc ++ c).length
    · refine ⟨[c], ⟨cs, rfl⟩, ?_⟩
      simpa [List.length_append] using hb
    · rw [if_neg hb] at h
      obtain ⟨p, hp, hsum⟩ := ih (acc ++ c) r h
      refine ⟨c :: p, ?_, ?_⟩
      · obtain ⟨t, ht⟩ := hp
        exact ⟨t, by rw [List.cons_append, ht]⟩
      · rw [List.length_append] at hsum
        simpa [Nat.add_assoc] using hsum

lemma read_chunks_tooLarge_of_exceeds (chunks : List (List Nat)) :
    ∀ acc, acc.length ≤ MAX_FILE_SIZE →
    (∃ p, p <+: chunks ∧ MAX_FILE_SIZE < acc.length + (p.map List.length).sum) →
    ∃ r, read_chunks acc chunks = .tooLarge r := by
  induction chunks with
  | nil =>
    intro acc ha ⟨p, hp, hsum⟩
    rw [List.prefix_nil.mp hp] at hsum
    simp at hsum
    exact absurd hsum (Nat.not_lt.mpr ha)
  | cons c cs ih =>
    intro acc ha ⟨p, hp, hsum⟩
    simp only [read_chunks]
    by_cases hb : MAX_FILE_SIZE < (acc ++ c).length
    · exact ⟨acc ++ c, by rw [if_pos hb]⟩
    · rw [if_neg hb]
      apply ih (acc ++ c) (Nat.le_of_not_lt hb)
      cases p with
      | nil =>
        simp at hsum
        exact absurd hsum (Nat.not_lt.mpr ha)
      | cons d p2 =>
        obtain ⟨rfl, hp2⟩ := List.cons_prefix_cons.mp hp
        refine ⟨p2, hp2, ?_⟩
        rw [List.length_append]
        simpa [Nat.add_assoc] using hsum

lemma read_chunks_content_not_exceeds (chunks : List (List Nat)) :
    ∀ acc b, acc.length ≤ MAX_FILE_SIZE → read_chunks acc chunks = .content b →
    ¬ (∃ p, p <+: chunks ∧ MAX_FILE_SIZE < acc.length + (p.map List.length).sum) := by
  intro acc b ha h hex
  obtain ⟨r, hr⟩ := read_chunks_tooLarge_of_exceeds chunks acc ha hex
  rw [h] at hr
  cases hr

/-- C2: the fetcher yields TooLarge in exactly two situations — a declared
Content-Length above the ceiling, aborting before any body byte is read
(readBytes = []), or the chunked read the instant the accumulated total
passes the ceiling, in which case the bytes read exceed the ceiling by at
most one chunk (8192 bytes); a fully read body certifies that neither
situation occurred, covering servers that omit or understate
Content-Length. -/
theorem claim_C2 (cl : Option String) (chunks : List (List Nat))
    (hc : ∀ c ∈ chunks, c.length ≤ 8192) :
    (declared_exceeds cl → fetch_body cl chunks = .ok (.tooLarge []))
    ∧ (∀ r, fetch_body cl chunks = .ok (.tooLarge r) →
        (r = [] ∧ declared_exceeds cl) ∨
        (MAX_FILE_SIZE < r.length ∧ r.length ≤ MAX_FILE_SIZE + 8192 ∧ stream_exceeds chunks))
    ∧ (header_passes cl → stream_exceeds chunks →
        ∃ r, fetch_body cl chunks = .ok (.tooLarge r))
    ∧ (∀ b, fetch_body cl chunks = .ok (.content b) →
        ¬ declared_exceeds cl ∧ ¬ stream_exceeds chunks) := by
  have hstream : ∀ r, read_chunks [] chunks = .tooLarge r →
      MAX_FILE_SIZE < r.length ∧ r.length ≤ MAX_FILE_SIZE + 8192 ∧ stream_exceeds chunks := by
    intro r hr
    obtain ⟨h1, h2⟩ := read_chunks_tooLarge_bound chunks [] r hc (by simp) hr
    obtain ⟨p, hp, hsum⟩ := read_chunks_tooLarge_exceeds chunks [] r hr
    exact ⟨h1, h2, p, hp, by simpa using hsum⟩
  have hgo : ∀ r, read_chunks [] chunks = .content r → ¬ stream_exceeds chunks := by
    intro r hr hex
    obtain ⟨p, hp, hsum⟩ := hex
    exact read_chunks_content_not_exceeds chunks [] r (by simp) hr ⟨p, hp, by simpa using hsum⟩
  cases cl with
  | none =>
    refine ⟨?_, ?_, ?_, ?_⟩
    · rintro ⟨s, n, hs, -⟩
      cases hs
    · intro r hr
      right
      exact hstream r (by simpa [fetch_body, check_content_length] using hr)
    · intro _ hex
      obtain ⟨r, hr⟩ := read_chunks_tooLarge_of_exceeds chunks [] (by simp)
        (by obtain ⟨p, hp, hs⟩ := hex; exact ⟨p, hp, by simpa using hs⟩)
      exact ⟨r, by simpa [fetch_body, check_content_length] using hr⟩
    · intro b hb
      refine ⟨?_, ?_⟩
      · rintro ⟨s, n, hs, -⟩
        cases hs
      · exact hgo b (by simpa [fetch_body, check_content_length] using hb)
  | some s =>
    by_cases hs : s = ""
    · subst hs
      refine ⟨?_, ?_, ?_, ?_⟩
      · rintro ⟨s2, n, hs2, hne, -⟩
        cases hs2
        exact absurd rfl hne
      · intro r hr
        right
        exact hstream r (by simpa [fetch_body, check_content_length] using hr)
      · intro _ hex
        obtain ⟨r, hr⟩ := read_chunks_tooLarge_of_exceeds chunks [] (by simp)
          (by obtain ⟨p, hp, hs2⟩ := hex; exact ⟨p, hp, by simpa using hs2⟩)
        exact ⟨r, by simpa [fetch_body, check_content_length] using hr⟩
      · intro b hb
        refine ⟨?_, ?_⟩
        · rintro ⟨s2, n, hs2, hne, -⟩
          cases hs2
          exact absurd rfl hne
        · exact hgo b (by simpa [fetch_body, check_content_length] using hb)
    · cases hn : pyInt s with
      | error e =>
        have hfb : fetch_body (some s) chunks = .error e := by
          simp [fetch_body, check_content_length, hs, hn]
        refine ⟨?_, ?_, ?_, ?_⟩
        · rintro ⟨s2, n, hs2, -, hok, -⟩
          cases hs2
          rw [hn] at hok
          cases hok
        · intro r hr
          rw [hfb] at hr
          cases hr
        · rintro (hnone | hemp | ⟨s2, n, hs2, hok, -⟩) _
          · cases hnone
          · cases hemp
            exact absurd rfl hs
          · cases hs2
            rw [hn] at hok
            cases hok
        · intro b hb
          rw [hfb] at hb
          cases hb
      | ok n =>
        by_cases hM : (MAX_FILE_SIZE : Int) < n
        · have hfb : fetch_body (some s) chunks = .ok (.tooLarge []) := by
            simp [fetch_body, check_content_length, hs, hn, hM]
          refine ⟨fun _ => hfb, ?_, ?_, ?_⟩
          · intro r hr
            rw [hfb] at hr
            cases hr
            exact Or.inl ⟨rfl, s, n, rfl, hs, hn, hM⟩
          · rintro (hnone | hemp | ⟨s2, n2, hs2, hok, hle⟩) _
            · cases hnone
            · cases hemp
              exact absurd rfl hs
            · cases hs2
              rw [hn] at hok
              cases hok
              exact absurd hM (Int.not_lt.mpr hle)
          · intro b hb
            rw [hfb] at hb
            cases hb
        · have hfb : fetch_body (some s) chunks = .ok (read_chunks [] chunks) := by
            simp [fetch_body, check_content_length, hs, hn, hM]
          refine ⟨?_, ?_, ?_, ?_⟩
          · rintro ⟨s2, n2, hs2, -, hok, hlt⟩
            cases hs2
            rw [hn] at hok
            cases hok
            exact absurd hlt hM
          · intro r hr
            rw [hfb] at hr
            injection hr with hr2
            exact Or.inr (hstream r hr2)
          · intro _ hex
            obtain ⟨r, hr⟩ := read_chunks_tooLarge_of_exceeds chunks [] (by simp)
              (by obtain ⟨p, hp, hs2⟩ := hex; exact ⟨p, hp, by simpa using hs2⟩)
            exact ⟨r, by rw [hfb, hr]⟩
          · intro b hb
            rw [hfb] at hb
            injection hb with hb2
            refine ⟨?_, hgo b hb2⟩
            rintro ⟨s2, n2, hs2, -, hok, hlt⟩
            cases hs2
            rw [hn] at hok
            cases hok
            exact absurd hlt hM

/-- C2, witness: a response declaring Content-Length 60000000 (above the
52428800-byte ceiling) is aborted before any body byte is read. -/
theorem claim_C2_witness :
    (∀ c ∈ ([] : List (List Nat)), c.length ≤ 8192)
    ∧ (∃ s n, (some ("60000000") : Option String) = some s ∧ s ≠ "" ∧
        pyInt s = .ok n ∧ (MAX_FILE_SIZE : Int) < n)
    ∧ fetch_body (some ("60000000")) [] = .ok (.tooLarge []) := by
  refine ⟨by simp, ⟨"60000000", 60000000, rfl, by decide, rfl, by decide⟩, ?_⟩
  exact (claim_C2 (some ("60000000")) [] (by simp)).1
    ⟨"60000000", 60000000, rfl, by decide, rfl, by decide⟩

/-! ## C3: every failure path yields the structured failure shape -/

/-- C3, counterexample: a reachable fetched response carrying the malformed
header Content-Length "abc" makes int() raise ValueError inside the URL
branch; no except clause catches it, so the handler terminates abnormally
instead of returning the structured failure shape. -/
theorem claim_C3_counterexample :
    process_file
      ⟨fun _ => .ok ⟨"http", some ("host.example")⟩,
       fun _ => [.v4 (v4addr 93 184 216 34)],
       fun _ => .resp ⟨none, some ("abc"), some ("text/plain"), []⟩,
       fun _ => .ok (""), fun _ => "", fun _ => .error ("x"), fun s => s⟩
      ⟨some ("http://host.example/a.txt"), none⟩
      = .error ("invalid literal for int: abc") :=
  rfl

lemma fetch_body_isOk (cl : Option String) (chunks : List (List Nat))
    (h : ∀ s, cl = some s → s ≠ "" → ∃ n, pyInt s = .ok n) :
    ∃ out, fetch_body cl chunks = .ok out := by
  cases cl with
  | none => exact ⟨_, rfl⟩
  | some s =>
    by_cases hs : s = ""
    · subst hs
      exact ⟨_, rfl⟩
    · obtain ⟨n, hn⟩ := h s rfl hs
      cases hM : decide ((MAX_FILE_SIZE : Int) < n) with
      | true =>
        refine ⟨.tooLarge [], ?_⟩
        simp [fetch_body, check_content_length, hs, hn, of_decide_eq_true hM]
      | false =>
        refine ⟨read_chunks [] chunks, ?_⟩
        simp [fetch_body, check_content_length, hs, hn, of_decide_eq_false hM]

lemma handle_url_isOk (env : Env) (u : String)
    (hcl : ∀ r s, env.http u = .resp r → r.contentLength = some s → s ≠ "" →
      ∃ n, pyInt s = .ok n) :
    ∃ resp, handle_url env u = .ok resp := by
  unfold handle_url
  cases hvv : validate_url env.parse env.dns u with
  | mk b msg =>
    cases b with
    | false => exact ⟨_, rfl⟩
    | true =>
      show ∃ resp, handle_url_fetch env u = .ok resp
      unfold handle_url_fetch
      cases hh : env.http u with
      | timeout => exact ⟨_, rfl⟩
      | netError m => exact ⟨_, rfl⟩
      | resp r =>
        show ∃ resp, handle_url_response env u r = .ok resp
        unfold handle_url_response
        cases hsm : r.statusMsg with
        | some m => exact ⟨_, rfl⟩
        | none =>
          show ∃ resp, handle_url_body env u r = .ok resp
          unfold handle_url_body
          obtain ⟨out, hout⟩ := fetch_body_isOk r.contentLength r.chunks
            (fun s hs hne => hcl r s hh hs hne)
          rw [hout]
          cases out with
          | tooLarge rb => exact ⟨_, rfl⟩
          | content bytes =>
            cases detect_format (derive_filename u) r.contentType with
            | error e => exact ⟨_, rfl⟩
            | ok fmt => exact ⟨_, rfl⟩

/-- C3 (amended): for every request and environment in which each fetched
response's Content-Length header, when present and non-empty, is a valid
integer literal, the endpoint returns a well-formed structured response on
every path — URL mode, upload mode, or missing input, through validation,
fetching, format-detection and parsing failures alike.  (Without that
proviso the claim fails: see the counterexample, where the uncaught
ValueError escapes the handler.) -/
theorem claim_C3_amended (env : Env) (req : ApiRequest)
    (hcl : ∀ u r s, env.http u = .resp r → r.contentLength = some s → s ≠ "" →
      ∃ n, pyInt s = .ok n) :
    ∃ resp, process_file env req = .ok resp := by
  cases hnu : nonEmptyUrl req.urlField with
  | some u =>
    have h2 : process_file env req = handle_url env (pyStrip u) := by
      unfold process_file
      rw [hnu]
    rw [h2]
    exact handle_url_isOk env (pyStrip u) (fun r s h => hcl (pyStrip u) r s h)
  | none =>
    cases hf : req.file with
    | some f => exact ⟨_, by unfold process_file; rw [hnu, hf]⟩
    | none => exact ⟨_, by unfold process_file; rw [hnu, hf]⟩

/-- C3, witness: an environment whose every fetch times out, given a
request with neither url nor file, returns a structured response. -/
theorem claim_C3_witness :
    (∀ u r s, (fun _ : String => HttpResult.timeout) u = .resp r →
      r.contentLength = some s → s ≠ "" → ∃ n, pyInt s = .ok n)
    ∧ ∃ resp,
        process_file
          ⟨fun _ => .ok ⟨"http", some ("h")⟩, fun _ => [], fun _ => .timeout,
           fun _ => .ok (""), fun _ => "", fun _ => .error ("x"), fun s => s⟩
          ⟨none, none⟩ = .ok resp :=
  ⟨fun _ _ _ hr => (nomatch hr),
   claim_C3_amended
     ⟨fun _ => .ok ⟨"http", some ("h")⟩, fun _ => [], fun _ => .timeout,
      fun _ => .ok (""), fun _ => "", fun _ => .error ("x"), fun s => s⟩
     ⟨none, none⟩ (fun _ _ _ hr => nomatch hr)⟩

end FiveHundredWpm
